import Mathlib

/-!
Verification development for `ticker_tracker.py`, a linear fetch-transform-merge
pipeline: per ticker, `scrape_and_ingest_csv` fetches historical quote data and
writes a CSV; `combine_csvs_to_excel` merges the per-run CSVs into one workbook.

The Python source is shallowly embedded: the interaction with the outside world
(the HTTP request, the filesystem, the pandas/xlsxwriter library calls) is
abstracted into an environment record describing the outcome of each external
call, and each function becomes a total Lean function of that environment whose
result carries the returned result code, the file contents produced, and the
console lines printed.
-/

set_option autoImplicit false

/-- The `ErrorCode` enumeration of `ticker_tracker.py` (lines 33-40). -/
inductive ErrorCode where
  | SUCCESS
  | ERROR_HTTP_REQUEST
  | ERROR_JSON_PARSING
  | ERROR_MISSING_FIELDS
  | ERROR_IO
  | ERROR_DIRECTORY
  | ERROR_UNKNOWN
deriving DecidableEq, Repr

/-- A row record of the API response: an ordered mapping field-name → value,
as a Python `dict` delivered in `tradesTable.rows`. -/
abbrev RowRecord : Type := List (String × String)

/-- The `tradesTable` dict of the parsed JSON body.  `headers` is `none` when
the `"headers"` key is absent (so `trades_table.get("headers", {})` yields `{}`),
and likewise `rows` for `"rows"`; `hasOtherKeys` records whether the dict holds
any further keys, which matters only for Python truthiness of the dict itself. -/
structure TradesTable where
  headers : Option (List (String × String))
  rows : Option (List RowRecord)
  hasOtherKeys : Bool
deriving DecidableEq

/-- Python truthiness of the `trades_table` dict: a dict is truthy iff it has
at least one key. -/
def TradesTable.isTruthy (tt : TradesTable) : Bool :=
  tt.headers.isSome || tt.rows.isSome || tt.hasOtherKeys

/-- The parsed JSON body, reduced to the part the program reads:
`data.get("data", {}).get("tradesTable", {})`.  `tradesTable = none` covers both
an absent `"data"` key and an absent `"tradesTable"` key (each yields `{}`). -/
structure Payload where
  tradesTable : Option TradesTable
deriving DecidableEq

/-- The chain `data.get("data", {}).get("tradesTable", {})` (line 71): an absent
section is the empty dict. -/
def tradesTableOf (data : Payload) : TradesTable :=
  data.tradesTable.getD ⟨none, none, false⟩

/-- The HTTP response: its status code, and the result of `response.json()`
(`none` models the `ValueError` raised on an unparseable body). -/
structure HttpResponse where
  status_code : Nat
  json : Option Payload
deriving DecidableEq

/-- Outcome of `requests.get` (line 54): either the call raises (timeout, DNS,
refusal, TLS, ...) or it returns a response. -/
inductive FetchOutcome where
  | connError
  | response (r : HttpResponse)
deriving DecidableEq

/-- Outcome of opening/writing the per-ticker CSV (lines 90-96): success, an
`IOError`, or any other exception (which the inner handler does not catch). -/
inductive CsvWriteOutcome where
  | ok
  | ioError (msg : String)
  | otherError (msg : String)
deriving DecidableEq

/-- The environment of one `scrape_and_ingest_csv` call: the outcome of each
external interaction it performs. -/
structure ScrapeEnv where
  fetch : FetchOutcome
  dirExists : Bool
  write : CsvWriteOutcome
deriving DecidableEq

/-- An exception escaping the inner handlers of `scrape_and_ingest_csv`. -/
inductive Exn where
  | otherErr (msg : String)
deriving DecidableEq

/-- `row.get(key, "")` (line 95): Python dict lookup with default. -/
def rowGet (row : RowRecord) (key : String) : String :=
  (List.lookup key row).getD ""

/-- `[row.get(key, "") for key in headers.keys()]` (line 95). -/
def projectRow (headers : List (String × String)) (row : RowRecord) : List String :=
  headers.map (fun h => rowGet row h.1)

/-- The records written to `<ticker>.csv` (lines 93-96): the header labels
(`headers.values()`), then one projected record per row, rows iterated via
`reversed(rows)`. -/
def csvRecords (headers : List (String × String)) (rows : List RowRecord) :
    List (List String) :=
  headers.map Prod.snd :: rows.reverse.map (projectRow headers)

/-- `trades_table.get("headers", {})` (line 76): the header mapping of the
parsed body, the empty dict when the key is absent. -/
def responseHeaders (data : Payload) : List (String × String) :=
  (tradesTableOf data).headers.getD []

/-- `trades_table.get("rows", [])` (line 77): the row sequence of the parsed
body, the empty list when the key is absent. -/
def responseRows (data : Payload) : List RowRecord :=
  (tradesTableOf data).rows.getD []

/-- The result of one `scrape_and_ingest_csv` call: the returned code and the
contents of the CSV file it successfully wrote, if any. -/
structure ScrapeResult where
  code : ErrorCode
  file : Option (List (List String))
deriving DecidableEq

/-- The body of `scrape_and_ingest_csv` (lines 47-100), inside the outer
`try`: an `Except` value, where `Except.error` is an exception that none of
the inner handlers caught and that reaches the outer `except Exception`
handler.  Mirrors the source statement by statement:
the bare `except:` around `requests.get` (lines 53-57), the status-code check
(line 59), the `except ValueError` around `response.json()` (lines 64-68), the
three falsiness checks on `trades_table` / `headers` / `rows` (lines 72-83),
the directory-existence check (lines 87-89), and the CSV write with its
`except IOError` handler (lines 90-100). -/
def scrape_body (e : ScrapeEnv) : Except Exn ScrapeResult :=
  match e.fetch with
  | FetchOutcome.connError => Except.ok ⟨ ErrorCode.ERROR_HTTP_REQUEST, none⟩
  | FetchOutcome.response response =>
    if response.status_code ≠ 200 then Except.ok ⟨ ErrorCode.ERROR_HTTP_REQUEST, none⟩
    else
      match response.json with
      | none => Except.ok ⟨ ErrorCode.ERROR_JSON_PARSING, none⟩
      | some data =>
        let trades_table := tradesTableOf data
        if trades_table.isTruthy = false then
          Except.ok ⟨ ErrorCode.ERROR_MISSING_FIELDS, none⟩
        else
          let headers := responseHeaders data
          let rows := responseRows data
          if headers = [] then Except.ok ⟨ ErrorCode.ERROR_MISSING_FIELDS, none⟩
          else if rows = [] then Except.ok ⟨ ErrorCode.ERROR_MISSING_FIELDS, none⟩
          else if e.dirExists = false then Except.ok ⟨ ErrorCode.ERROR_DIRECTORY, none⟩
          else
            match e.write with
            | CsvWriteOutcome.ok =>
              Except.ok ⟨ ErrorCode.SUCCESS, some (csvRecords headers rows)⟩
            | CsvWriteOutcome.ioError _ => Except.ok ⟨ ErrorCode.ERROR_IO, none⟩
            | CsvWriteOutcome.otherError m => Except.error (Exn.otherErr m)

/-- `scrape_and_ingest_csv` (lines 43-105): the body wrapped in the outer
`except Exception` handler (lines 103-105), which turns any escaped exception
into `ERROR_UNKNOWN`. -/
def scrape_and_ingest_csv (e : ScrapeEnv) : ScrapeResult :=
  match scrape_body e with
  | Except.ok r => r
  | Except.error _ => ⟨ ErrorCode.ERROR_UNKNOWN, none⟩

/-! ## The combiner, `combine_csvs_to_excel` (lines 108-154) -/

/-- Records of a pandas DataFrame as they round-trip through `pd.read_csv` and
`DataFrame.to_excel`: the header record followed by the data records. -/
abbrev DataFrame : Type := List (List String)

/-- Outcome of the per-file read step of the combiner (lines 119-136): the
`os.path.exists` check fails, one of the caught exceptions is raised by
`pd.read_csv`, or a DataFrame is obtained. -/
inductive ReadOutcome where
  | notExists
  | fileNotFound
  | emptyData
  | parserError
  | otherExn (msg : String)
  | ok (df : DataFrame)
deriving DecidableEq

/-- Whether the read step produced a DataFrame. -/
def ReadOutcome.isOk : ReadOutcome → Bool
  | ReadOutcome.ok _ => true
  | _ => false

/-- Outcome of the final `pd.ExcelWriter` write (lines 144-154): success, a
`PermissionError`, or any other exception. -/
inductive ExcelWriteOutcome where
  | ok
  | permError
  | otherExn (msg : String)
deriving DecidableEq

/-- The environment of one `combine_csvs_to_excel` call: the outcome of
reading each candidate filename, and of the final workbook write. -/
structure CombineEnv where
  read : String → ReadOutcome
  write : ExcelWriteOutcome

/-- `os.path.join(child_dir, f)`: an absolute second component replaces the
first, otherwise the components are joined with a separator. -/
def os_path_join (child_dir f : String) : String :=
  if f.data.head? = some '/' then f else child_dir ++ "/" ++ f

/-- `os.path.basename`: the characters after the last path separator. -/
def os_path_basename (s : String) : String :=
  String.mk ((s.data.reverse.takeWhile (fun c => c ≠ '/')).reverse)

/-- Python `str.replace(".csv", "")`: scan left to right, removing every
(non-overlapping) occurrence of the 4-character pattern `".csv"`. -/
def removeCsvOccurrences : List Char → List Char
  | '.' :: 'c' :: 's' :: 'v' :: rest => removeCsvOccurrences rest
  | c :: rest => c :: removeCsvOccurrences rest
  | [] => []

/-- `os.path.basename(csv_file).replace(".csv", "")` (line 126): the sheet
name derived from the joined path of a candidate filename. -/
def sheet_name_of (csv_file : String) : String :=
  String.mk (removeCsvOccurrences (os_path_basename csv_file).data)

/-- Python dict assignment `sheets[sheet_name] = df` (line 127): replace in
place when the key is present, else append. -/
def dictInsert (m : List (String × DataFrame)) (k : String) (v : DataFrame) :
    List (String × DataFrame) :=
  match m with
  | [] => [(k, v)]
  | (k', v') :: rest => if k' = k then (k, v) :: rest else (k', v') :: dictInsert rest k v

/-- The console line printed for one skipped candidate file (lines 121, 130,
132, 134, 136). -/
def readWarning (csv_file : String) : ReadOutcome → List String
  | ReadOutcome.notExists => [s!"Error: The file {csv_file} does not exist."]
  | ReadOutcome.fileNotFound => [s!"File not found: {csv_file}"]
  | ReadOutcome.emptyData => [s!"Warning: {csv_file} is empty."]
  | ReadOutcome.parserError => [s!"Error: Failed to parse {csv_file}."]
  | ReadOutcome.otherExn m => [s!"An error occurred while processing {csv_file}: {m}"]
  | ReadOutcome.ok _ => []

/-- One iteration of the combiner's loop over `csv_files` (lines 116-136),
threading the `sheets` dict and the printed lines. -/
def combineStep (env : CombineEnv) (child_dir : String)
    (acc : List (String × DataFrame) × List String) (f : String) :
    List (String × DataFrame) × List String :=
  let csv_file := os_path_join child_dir f
  match env.read f with
  | ReadOutcome.ok df => (dictInsert acc.1 (sheet_name_of csv_file) df, acc.2)
  | outcome => (acc.1, acc.2 ++ readWarning csv_file outcome)

/-- The combiner's whole loop over `csv_files` (lines 113-136). -/
def collectSheets (env : CombineEnv) (child_dir : String) (csv_files : List String) :
    List (String × DataFrame) × List String :=
  csv_files.foldl (combineStep env child_dir) ([], [])

/-- `DataFrame.to_excel(..., index=index)`: with `index=True` pandas prepends a
synthetic index column (blank header cell, then the row position); with
`index=False` the records are emitted as they are. -/
def to_excel_records (df : DataFrame) (index : Bool) : DataFrame :=
  if index then
    match df with
    | [] => []
    | h :: rows => ("" :: h) :: rows.enum.map (fun p => toString p.1 :: p.2)
  else df

/-- The result of one `combine_csvs_to_excel` call: the Python return value
(`none` models falling off the end of the function, i.e. returning `None`),
the workbook written (sheet name and emitted records per sheet), and the
console lines printed. -/
structure CombineResult where
  retval : Option ErrorCode
  workbook : Option (List (String × DataFrame))
  printed : List String
deriving DecidableEq

/-- `combine_csvs_to_excel` (lines 108-154): the per-file loop, the empty-dict
check (lines 139-141), and the final workbook write with its
`except PermissionError` / `except Exception` handlers (lines 144-154), which
print a diagnostic and fall through without a `return` statement. -/
def combine_csvs_to_excel (env : CombineEnv) (child_dir : String)
    (csv_files : List String) (output_excel : String) : CombineResult :=
  let acc := collectSheets env child_dir csv_files
  let sheets := acc.1
  let warnings := acc.2
  if sheets = [] then
    ⟨some ErrorCode.ERROR_UNKNOWN, none,
      warnings ++ ["No valid CSV files were processed. Exiting..."]⟩
  else
    match env.write with
    | ExcelWriteOutcome.ok =>
      ⟨some ErrorCode.SUCCESS,
        some (sheets.map (fun p => (p.1, to_excel_records p.2 false))),
        warnings ++ [s!"Success!: {output_excel}"]⟩
    | ExcelWriteOutcome.permError =>
      ⟨none, none,
        warnings ++ [s!"Error: Permission denied when trying to write to {output_excel}."]⟩
    | ExcelWriteOutcome.otherExn m =>
      ⟨none, none,
        warnings ++ [s!"An error occurred while writing the Excel file: {m}"]⟩

/-! ## The orchestrator's per-ticker console line (lines 176-179) -/

/-- The bare name of an `ErrorCode` member. -/
def errorCodeName : ErrorCode → String
  | ErrorCode.SUCCESS => "SUCCESS"
  | ErrorCode.ERROR_HTTP_REQUEST => "ERROR_HTTP_REQUEST"
  | ErrorCode.ERROR_JSON_PARSING => "ERROR_JSON_PARSING"
  | ErrorCode.ERROR_MISSING_FIELDS => "ERROR_MISSING_FIELDS"
  | ErrorCode.ERROR_IO => "ERROR_IO"
  | ErrorCode.ERROR_DIRECTORY => "ERROR_DIRECTORY"
  | ErrorCode.ERROR_UNKNOWN => "ERROR_UNKNOWN"

/-- Python `str()` of a plain `Enum` member: the class-qualified name
`ErrorCode.<NAME>`, which is what `{rc}` interpolates in the f-string. -/
def errorCodeStr (rc : ErrorCode) : String :=
  "ErrorCode." ++ errorCodeName rc

/-- Python format spec `<4`: left-justify, padding on the right with spaces to
a minimum width of 4. -/
def ljust (s : String) (w : Nat) : String :=
  s ++ String.mk (List.replicate (w - s.length) ' ')

/-- The orchestrator's per-ticker console line, `f"{t:<4} - {rc}"` (line 179). -/
def ticker_line (t : String) (rc : ErrorCode) : String :=
  ljust t 4 ++ " - " ++ errorCodeStr rc

/-! ## Sample environments used by the witness theorems -/

/-- A sample header mapping. -/
def sampleHeaders : List (String × String) := [("date", "Date"), ("close", "Close")]

/-- Sample rows, newest first as the API delivers them; the second row lacks
the `"close"` key. -/
def sampleRows : List RowRecord := [[("date", "d2"), ("close", "9")], [("date", "d1")]]

/-- A sample well-formed payload. -/
def samplePayload : Payload := ⟨some ⟨some sampleHeaders, some sampleRows, false⟩⟩

/-- A sample 200 response carrying `samplePayload`. -/
def sampleResponse : HttpResponse := ⟨200, some samplePayload⟩

/-- An environment in which everything succeeds. -/
def successEnv : ScrapeEnv := ⟨ FetchOutcome.response sampleResponse, true, CsvWriteOutcome.ok⟩

/-- An environment in which the CSV write raises a non-`IOError` exception. -/
def unknownEnv : ScrapeEnv :=
  ⟨ FetchOutcome.response sampleResponse, true, CsvWriteOutcome.otherError "boom"⟩

/-- An environment in which the fetch succeeds but the target directory is
absent. -/
def noDirEnv : ScrapeEnv := ⟨ FetchOutcome.response sampleResponse, false, CsvWriteOutcome.ok⟩

/-- A combiner environment with one readable file `A.csv` and everything else
absent. -/
def combEnv : CombineEnv :=
  ⟨fun g => if g = "A.csv" then ReadOutcome.ok [["h"], ["1"]] else ReadOutcome.notExists,
    ExcelWriteOutcome.ok⟩

/-- A combiner environment in which every candidate file reads successfully. -/
def allOkEnv : CombineEnv := ⟨fun _ => ReadOutcome.ok [["h"], ["1"]], ExcelWriteOutcome.ok⟩

/-- A combiner environment in which no candidate file exists. -/
def allFailEnv : CombineEnv := ⟨fun _ => ReadOutcome.notExists, ExcelWriteOutcome.ok⟩

/-- A combiner environment whose final workbook write raises
`PermissionError`. -/
def permFailEnv : CombineEnv :=
  ⟨fun _ => ReadOutcome.ok [["h"], ["1"]], ExcelWriteOutcome.permError⟩

/-- The sheet-naming rule as the spec words it, for comparison with the
source's `sheet_name_of`: "Sheet name derived by stripping the tabular-file
extension from the filename", i.e. a trailing `.csv` is removed, the rest of
the name untouched. -/
def stripCsvExtensionSpec (f : String) : String :=
  if f.data.reverse.take 4 = ['v', 's', 'c', '.'] then
    String.mk (f.data.take (f.data.length - 4))
  else f

/-! ## Helper lemmas about `scrape_and_ingest_csv` -/

/-- When every check passes and the write succeeds, `scrape_and_ingest_csv`
returns `SUCCESS` together with the projected CSV records. -/
lemma scrape_eq_success (e : ScrapeEnv) (r : HttpResponse) (data : Payload)
    (hf : e.fetch = FetchOutcome.response r) (hs : r.status_code = 200)
    (hj : r.json = some data) (ht : (tradesTableOf data).isTruthy = true)
    (hh : responseHeaders data ≠ []) (hr : responseRows data ≠ [])
    (hd : e.dirExists = true) (hw : e.write = CsvWriteOutcome.ok) :
    scrape_and_ingest_csv e =
      ⟨ ErrorCode.SUCCESS, some (csvRecords (responseHeaders data) (responseRows data))⟩ := by
  simp [scrape_and_ingest_csv, scrape_body, hf, hs, hj, ht, hh, hr, hd, hw]

/-- Conversely, a `SUCCESS` result forces every check to have passed. -/
lemma scrape_success_conditions (e : ScrapeEnv)
    (h : (scrape_and_ingest_csv e).code = ErrorCode.SUCCESS) :
    ∃ r data, e.fetch = FetchOutcome.response r ∧ r.status_code = 200 ∧
      r.json = some data ∧ (tradesTableOf data).isTruthy = true ∧
      responseHeaders data ≠ [] ∧ responseRows data ≠ [] ∧
      e.dirExists = true ∧ e.write = CsvWriteOutcome.ok := by
  obtain ⟨fetch, dirE, write⟩ := e
  cases fetch with
  | connError => simp [scrape_and_ingest_csv, scrape_body] at h
  | response r =>
    by_cases hs : r.status_code = 200
    · cases hj : r.json with
      | none => simp [scrape_and_ingest_csv, scrape_body, hs, hj] at h
      | some data =>
        by_cases ht : (tradesTableOf data).isTruthy = false
        · simp [scrape_and_ingest_csv, scrape_body, hs, hj, ht] at h
        · have ht' : (tradesTableOf data).isTruthy = true := by
            revert ht; cases (tradesTableOf data).isTruthy <;> simp
          by_cases hh : responseHeaders data = []
          · simp [scrape_and_ingest_csv, scrape_body, hs, hj, ht', hh] at h
          · by_cases hr : responseRows data = []
            · simp [scrape_and_ingest_csv, scrape_body, hs, hj, ht', hh, hr] at h
            · cases dirE with
              | false =>
                simp [scrape_and_ingest_csv, scrape_body, hs, hj, ht', hh, hr] at h
              | true =>
                cases write with
                | ok => exact ⟨r, data, rfl, hs, hj, ht', hh, hr, rfl, rfl⟩
                | ioError m =>
                  simp [scrape_and_ingest_csv, scrape_body, hs, hj, ht', hh, hr] at h
                | otherError m =>
                  simp [scrape_and_ingest_csv, scrape_body, hs, hj, ht', hh, hr] at h
    · simp [scrape_and_ingest_csv, scrape_body, hs] at h

/-! ## Claims about `scrape_and_ingest_csv` -/

/-- C1: for every ticker whose fetch-and-write succeeds (result `SUCCESS`),
the produced per-ticker tabular file consists of one header line followed by
exactly as many data lines as the API response has rows, and the data lines
appear in the exact reverse of the API's delivered row order. -/
theorem c1_success_file_rows (e : ScrapeEnv) (r : HttpResponse) (data : Payload)
    (hf : e.fetch = FetchOutcome.response r) (hj : r.json = some data)
    (h : (scrape_and_ingest_csv e).code = ErrorCode.SUCCESS) :
    (scrape_and_ingest_csv e).file =
      some ((responseHeaders data).map Prod.snd ::
        ((responseRows data).map (projectRow (responseHeaders data))).reverse) ∧
    ∀ recs, (scrape_and_ingest_csv e).file = some recs →
      recs.length = (responseRows data).length + 1 := by
  obtain ⟨r', data', hf', hs', hj', ht', hh', hr', hd', hw'⟩ := scrape_success_conditions e h
  rw [hf] at hf'
  injection hf' with hrr
  subst hrr
  rw [hj] at hj'
  injection hj' with hdd
  subst hdd
  rw [scrape_eq_success e r data hf hs' hj ht' hh' hr' hd' hw']
  constructor
  · simp [csvRecords, List.map_reverse]
  · intro recs hrecs
    simp only [Option.some.injEq] at hrecs
    subst hrecs
    simp [csvRecords]

/-- Witness for C1 at a concrete environment. -/
theorem c1_success_file_rows_witness :
    successEnv.fetch = FetchOutcome.response sampleResponse ∧
    sampleResponse.json = some samplePayload ∧
    (scrape_and_ingest_csv successEnv).code = ErrorCode.SUCCESS ∧
    ((scrape_and_ingest_csv successEnv).file =
      some ((responseHeaders samplePayload).map Prod.snd ::
        ((responseRows samplePayload).map (projectRow (responseHeaders samplePayload))).reverse) ∧
    ∀ recs, (scrape_and_ingest_csv successEnv).file = some recs →
      recs.length = (responseRows samplePayload).length + 1) :=
  ⟨rfl, rfl, by decide,
    c1_success_file_rows successEnv sampleResponse samplePayload rfl rfl (by decide)⟩

/-- C2: the per-ticker fetch classifies its outcome by the first matching rule
of a fixed priority order: transport failure → http-request error; non-200
status → http-request error; unparseable body → parse error; absent/empty
`tradesTable`, then empty header mapping, then empty row sequence →
missing-fields error; otherwise the fetch is treated as successful (and, with
the directory present and the write succeeding, the call returns `SUCCESS`). -/
theorem c2_classification_priority (e : ScrapeEnv) :
    (e.fetch = FetchOutcome.connError →
      (scrape_and_ingest_csv e).code = ErrorCode.ERROR_HTTP_REQUEST) ∧
    (∀ r, e.fetch = FetchOutcome.response r → r.status_code ≠ 200 →
      (scrape_and_ingest_csv e).code = ErrorCode.ERROR_HTTP_REQUEST) ∧
    (∀ r, e.fetch = FetchOutcome.response r → r.status_code = 200 → r.json = none →
      (scrape_and_ingest_csv e).code = ErrorCode.ERROR_JSON_PARSING) ∧
    (∀ r data, e.fetch = FetchOutcome.response r → r.status_code = 200 →
      r.json = some data → (tradesTableOf data).isTruthy = false →
      (scrape_and_ingest_csv e).code = ErrorCode.ERROR_MISSING_FIELDS) ∧
    (∀ r data, e.fetch = FetchOutcome.response r → r.status_code = 200 →
      r.json = some data → (tradesTableOf data).isTruthy = true →
      responseHeaders data = [] →
      (scrape_and_ingest_csv e).code = ErrorCode.ERROR_MISSING_FIELDS) ∧
    (∀ r data, e.fetch = FetchOutcome.response r → r.status_code = 200 →
      r.json = some data → (tradesTableOf data).isTruthy = true →
      responseHeaders data ≠ [] → responseRows data = [] →
      (scrape_and_ingest_csv e).code = ErrorCode.ERROR_MISSING_FIELDS) ∧
    (∀ r data, e.fetch = FetchOutcome.response r → r.status_code = 200 →
      r.json = some data → (tradesTableOf data).isTruthy = true →
      responseHeaders data ≠ [] → responseRows data ≠ [] →
      e.dirExists = true → e.write = CsvWriteOutcome.ok →
      (scrape_and_ingest_csv e).code = ErrorCode.SUCCESS) := by
  refine ⟨?_, ?_, ?_, ?_, ?_, ?_, ?_⟩
  · intro hf; simp [scrape_and_ingest_csv, scrape_body, hf]
  · intro r hf hs; simp [scrape_and_ingest_csv, scrape_body, hf, hs]
  · intro r hf hs hj; simp [scrape_and_ingest_csv, scrape_body, hf, hs, hj]
  · intro r data hf hs hj ht; simp [scrape_and_ingest_csv, scrape_body, hf, hs, hj, ht]
  · intro r data hf hs hj ht hh
    simp [scrape_and_ingest_csv, scrape_body, hf, hs, hj, ht, hh]
  · intro r data hf hs hj ht hh hr
    simp [scrape_and_ingest_csv, scrape_body, hf, hs, hj, ht, hh, hr]
  · intro r data hf hs hj ht hh hr hd hw
    rw [scrape_eq_success e r data hf hs hj ht hh hr hd hw]

/-- Witness for C2: each classification rule observed at a concrete
environment. -/
theorem c2_classification_priority_witness :
    (scrape_and_ingest_csv ⟨ FetchOutcome.connError, true, CsvWriteOutcome.ok⟩).code =
      ErrorCode.ERROR_HTTP_REQUEST ∧
    (scrape_and_ingest_csv
      ⟨ FetchOutcome.response ⟨404, none⟩, true, CsvWriteOutcome.ok⟩).code =
      ErrorCode.ERROR_HTTP_REQUEST ∧
    (scrape_and_ingest_csv
      ⟨ FetchOutcome.response ⟨200, none⟩, true, CsvWriteOutcome.ok⟩).code =
      ErrorCode.ERROR_JSON_PARSING ∧
    (scrape_and_ingest_csv
      ⟨ FetchOutcome.response ⟨200, some ⟨none⟩⟩, true, CsvWriteOutcome.ok⟩).code =
      ErrorCode.ERROR_MISSING_FIELDS ∧
    (scrape_and_ingest_csv
      ⟨ FetchOutcome.response ⟨200, some ⟨some ⟨some [], some sampleRows, false⟩⟩⟩, true,
        CsvWriteOutcome.ok⟩).code = ErrorCode.ERROR_MISSING_FIELDS ∧
    (scrape_and_ingest_csv
      ⟨ FetchOutcome.response ⟨200, some ⟨some ⟨some sampleHeaders, some [], false⟩⟩⟩, true,
        CsvWriteOutcome.ok⟩).code = ErrorCode.ERROR_MISSING_FIELDS ∧
    (scrape_and_ingest_csv successEnv).code = ErrorCode.SUCCESS :=
  ⟨(c2_classification_priority _).1 rfl,
    (c2_classification_priority _).2.1 _ rfl (by decide),
    (c2_classification_priority _).2.2.1 _ rfl (by decide) rfl,
    (c2_classification_priority _).2.2.2.1 _ _ rfl (by decide) rfl (by decide),
    (c2_classification_priority _).2.2.2.2.1 _ _ rfl (by decide) rfl (by decide) (by decide),
    (c2_classification_priority _).2.2.2.2.2.1 _ _ rfl (by decide) rfl (by decide) (by decide)
      (by decide),
    (c2_classification_priority _).2.2.2.2.2.2 _ _ rfl (by decide) rfl (by decide) (by decide)
      (by decide) rfl rfl⟩

/-- C3: for every input the per-ticker operation returns one of the enumerated
result codes and never propagates an exception; an exception not matched by a
specific handler is caught by the outer handler and reported as
`ERROR_UNKNOWN`. -/
theorem c3_fault_containment (e : ScrapeEnv) :
    ((scrape_and_ingest_csv e).code = ErrorCode.SUCCESS ∨
     (scrape_and_ingest_csv e).code = ErrorCode.ERROR_HTTP_REQUEST ∨
     (scrape_and_ingest_csv e).code = ErrorCode.ERROR_JSON_PARSING ∨
     (scrape_and_ingest_csv e).code = ErrorCode.ERROR_MISSING_FIELDS ∨
     (scrape_and_ingest_csv e).code = ErrorCode.ERROR_IO ∨
     (scrape_and_ingest_csv e).code = ErrorCode.ERROR_DIRECTORY ∨
     (scrape_and_ingest_csv e).code = ErrorCode.ERROR_UNKNOWN) ∧
    ∀ exn, scrape_body e = Except.error exn →
      (scrape_and_ingest_csv e).code = ErrorCode.ERROR_UNKNOWN := by
  constructor
  · cases h : (scrape_and_ingest_csv e).code <;> simp
  · intro exn hx
    simp [scrape_and_ingest_csv, hx]

/-- Witness for C3: a write-time exception that no inner handler catches is
reported as `ERROR_UNKNOWN`. -/
theorem c3_fault_containment_witness :
    scrape_body unknownEnv = Except.error (Exn.otherErr "boom") ∧
    (scrape_and_ingest_csv unknownEnv).code = ErrorCode.ERROR_UNKNOWN :=
  ⟨rfl, (c3_fault_containment unknownEnv).2 (Exn.otherErr "boom") rfl⟩

/-- C4: for every row of a successfully fetched response and every key of the
header mapping, a row lacking the key contributes an empty string at that
key's column position; no column is omitted (each data line has one field per
header) and no row is skipped (the file has one data line per row). -/
theorem c4_missing_key_empty_field (e : ScrapeEnv) (r : HttpResponse) (data : Payload)
    (hf : e.fetch = FetchOutcome.response r) (hj : r.json = some data)
    (h : (scrape_and_ingest_csv e).code = ErrorCode.SUCCESS) :
    ∀ row ∈ responseRows data,
      (projectRow (responseHeaders data) row).length = (responseHeaders data).length ∧
      (∀ recs, (scrape_and_ingest_csv e).file = some recs →
        projectRow (responseHeaders data) row ∈ recs.tail ∧
        recs.tail.length = (responseRows data).length) ∧
      ∀ (j : Nat) k lbl, (responseHeaders data)[j]? = some (k, lbl) →
        List.lookup k row = none →
        (projectRow (responseHeaders data) row)[j]? = some "" := by
  intro row hrow
  obtain ⟨r', data', hf', hs', hj', ht', hh', hr', hd', hw'⟩ := scrape_success_conditions e h
  rw [hf] at hf'
  injection hf' with hrr
  subst hrr
  rw [hj] at hj'
  injection hj' with hdd
  subst hdd
  refine ⟨by simp [projectRow], ?_, ?_⟩
  · intro recs hrecs
    rw [scrape_eq_success e r data hf hs' hj ht' hh' hr' hd' hw'] at hrecs
    simp only [Option.some.injEq] at hrecs
    subst hrecs
    constructor
    · simp only [csvRecords, List.tail_cons]
      exact List.mem_map.mpr ⟨row, List.mem_reverse.mpr hrow, rfl⟩
    · simp [csvRecords]
  · intro j k lbl hjk hlk
    simp only [projectRow, List.getElem?_map, hjk, Option.map_some]
    simp [rowGet, hlk]

/-- Witness for C4 at a concrete environment whose second row lacks the
`"close"` key. -/
theorem c4_missing_key_empty_field_witness :
    successEnv.fetch = FetchOutcome.response sampleResponse ∧
    sampleResponse.json = some samplePayload ∧
    (scrape_and_ingest_csv successEnv).code = ErrorCode.SUCCESS ∧
    [("date", "d1")] ∈ responseRows samplePayload ∧
    ((projectRow (responseHeaders samplePayload) [("date", "d1")]).length =
      (responseHeaders samplePayload).length ∧
    (∀ recs, (scrape_and_ingest_csv successEnv).file = some recs →
      projectRow (responseHeaders samplePayload) [("date", "d1")] ∈ recs.tail ∧
      recs.tail.length = (responseRows samplePayload).length) ∧
    ∀ (j : Nat) k lbl, (responseHeaders samplePayload)[j]? = some (k, lbl) →
      List.lookup k [("date", "d1")] = none →
      (projectRow (responseHeaders samplePayload) [("date", "d1")])[j]? = some "") :=
  ⟨rfl, rfl, by decide, by decide,
    c4_missing_key_empty_field successEnv sampleResponse samplePayload rfl rfl (by decide)
      [("date", "d1")] (by decide)⟩

/-- C5: when the target directory is absent at persist time (all fetch-side
checks having passed), the operation returns `ERROR_DIRECTORY` and writes no
file. -/
theorem c5_missing_directory (e : ScrapeEnv) (r : HttpResponse) (data : Payload)
    (hf : e.fetch = FetchOutcome.response r) (hs : r.status_code = 200)
    (hj : r.json = some data) (ht : (tradesTableOf data).isTruthy = true)
    (hh : responseHeaders data ≠ []) (hr : responseRows data ≠ [])
    (hd : e.dirExists = false) :
    scrape_and_ingest_csv e = ⟨ ErrorCode.ERROR_DIRECTORY, none⟩ := by
  simp [scrape_and_ingest_csv, scrape_body, hf, hs, hj, ht, hh, hr, hd]

/-- Witness for C5 at a concrete environment with the directory absent. -/
theorem c5_missing_directory_witness :
    noDirEnv.fetch = FetchOutcome.response sampleResponse ∧
    sampleResponse.status_code = 200 ∧
    sampleResponse.json = some samplePayload ∧
    (tradesTableOf samplePayload).isTruthy = true ∧
    responseHeaders samplePayload ≠ [] ∧
    responseRows samplePayload ≠ [] ∧
    noDirEnv.dirExists = false ∧
    scrape_and_ingest_csv noDirEnv = ⟨ ErrorCode.ERROR_DIRECTORY, none⟩ :=
  ⟨rfl, rfl, rfl, by decide, by decide, by decide, rfl,
    c5_missing_directory noDirEnv sampleResponse samplePayload rfl rfl rfl (by decide)
      (by decide) (by decide) rfl⟩

/-! ## Helper lemmas about the combiner -/

/-- `dictInsert` never empties the dict. -/
lemma dictInsert_ne_nil (m : List (String × DataFrame)) (k : String) (v : DataFrame) :
    dictInsert m k v ≠ [] := by
  cases m with
  | nil => simp [dictInsert]
  | cons hd rest =>
    obtain ⟨k', v'⟩ := hd
    by_cases hk : k' = k <;> simp [dictInsert, hk]

/-- Looking up the key just assigned yields the assigned value. -/
lemma lookup_dictInsert_self (m : List (String × DataFrame)) (k : String) (v : DataFrame) :
    List.lookup k (dictInsert m k v) = some v := by
  induction m with
  | nil => simp [dictInsert]
  | cons hd rest ih =>
    obtain ⟨k', v'⟩ := hd
    by_cases hk : k' = k
    · subst hk; simp [dictInsert]
    · simp only [dictInsert, if_neg hk, List.lookup]
      rw [ih]
      have : (k == k') = false := by simp [Ne.symm hk]
      simp [this]

/-- An assignment to one key leaves every other key's lookup unchanged. -/
lemma lookup_dictInsert_other (m : List (String × DataFrame)) (k k' : String)
    (v : DataFrame) (h : k' ≠ k) :
    List.lookup k' (dictInsert m k v) = List.lookup k' m := by
  induction m with
  | nil =>
    have hkk : (k' == k) = false := by simp [h]
    simp [dictInsert, List.lookup, hkk]
  | cons hd rest ih =>
    obtain ⟨k₀, v₀⟩ := hd
    by_cases hk : k₀ = k
    · subst hk
      simp only [dictInsert, if_pos rfl, List.lookup]
      have : (k' == k₀) = false := by simp [h]
      simp [this]
    · simp only [dictInsert, if_neg hk, List.lookup]
      cases hkk : k' == k₀ with
      | true => simp
      | false => simpa using ih

/-- The sheets accumulated by the combiner's loop do not depend on the lines
already printed. -/
lemma collect_fst_printed_irrelevant (env : CombineEnv) (d : String) :
    ∀ (l : List String) (s : List (String × DataFrame)) (p p' : List String),
      (List.foldl (combineStep env d) (s, p) l).1 =
        (List.foldl (combineStep env d) (s, p') l).1 := by
  intro l
  induction l with
  | nil => intro s p p'; rfl
  | cons g rest ih =>
    intro s p p'
    cases hg : env.read g <;> simp only [List.foldl_cons, combineStep, hg] <;> exact ih _ _ _

/-- Lines already printed survive the rest of the loop. -/
lemma mem_collect_printed (env : CombineEnv) (d : String) :
    ∀ (l : List String) (s : List (String × DataFrame)) (p : List String) (x : String),
      x ∈ p → x ∈ (List.foldl (combineStep env d) (s, p) l).2 := by
  intro l
  induction l with
  | nil => intro s p x hx; exact hx
  | cons g rest ih =>
    intro s p x hx
    cases hg : env.read g <;> simp only [List.foldl_cons, combineStep, hg] <;>
      exact ih _ _ _ (by simp [hx])

/-- When every file in the list fails to read, the loop adds no sheet. -/
lemma collect_fst_all_fail (env : CombineEnv) (d : String) :
    ∀ (l : List String) (s : List (String × DataFrame)) (p : List String),
      (∀ g ∈ l, (env.read g).isOk = false) →
      (List.foldl (combineStep env d) (s, p) l).1 = s := by
  intro l
  induction l with
  | nil => intro s p _; rfl
  | cons g rest ih =>
    intro s p hall
    cases hg : env.read g with
    | ok df =>
      have := hall g (by simp)
      rw [hg] at this
      simp [ReadOutcome.isOk] at this
    | notExists =>
      simp only [List.foldl_cons, combineStep, hg]
      exact ih _ _ (fun g' hg' => hall g' (by simp [hg']))
    | fileNotFound =>
      simp only [List.foldl_cons, combineStep, hg]
      exact ih _ _ (fun g' hg' => hall g' (by simp [hg']))
    | emptyData =>
      simp only [List.foldl_cons, combineStep, hg]
      exact ih _ _ (fun g' hg' => hall g' (by simp [hg']))
    | parserError =>
      simp only [List.foldl_cons, combineStep, hg]
      exact ih _ _ (fun g' hg' => hall g' (by simp [hg']))
    | otherExn m =>
      simp only [List.foldl_cons, combineStep, hg]
      exact ih _ _ (fun g' hg' => hall g' (by simp [hg']))

/-- A nonempty sheet dict stays nonempty through the rest of the loop. -/
lemma collect_fst_ne_nil_preserved (env : CombineEnv) (d : String) :
    ∀ (l : List String) (s : List (String × DataFrame)) (p : List String),
      s ≠ [] → (List.foldl (combineStep env d) (s, p) l).1 ≠ [] := by
  intro l
  induction l with
  | nil => intro s p hs; exact hs
  | cons g rest ih =>
    intro s p hs
    cases hg : env.read g <;> simp only [List.foldl_cons, combineStep, hg]
    case ok df => exact ih _ _ (dictInsert_ne_nil _ _ _)
    all_goals exact ih _ _ hs

/-- One successfully read file makes the collected sheet dict nonempty. -/
lemma collect_fst_ne_nil_of_ok (env : CombineEnv) (d : String) :
    ∀ (l : List String) (s : List (String × DataFrame)) (p : List String),
      (∃ g ∈ l, (env.read g).isOk = true) →
      (List.foldl (combineStep env d) (s, p) l).1 ≠ [] := by
  intro l
  induction l with
  | nil => intro s p h; simp at h
  | cons g rest ih =>
    intro s p h
    cases hg : env.read g <;> simp only [List.foldl_cons, combineStep, hg]
    case ok df => exact collect_fst_ne_nil_preserved env d rest _ _ (dictInsert_ne_nil _ _ _)
    all_goals
      refine ih _ _ ?_
      obtain ⟨g', hg', hok⟩ := h
      rcases List.mem_cons.mp hg' with hgg | hgg
      · subst hgg; rw [hg] at hok; simp [ReadOutcome.isOk] at hok
      · exact ⟨g', hgg, hok⟩

/-- Skipping one failing file leaves the collected sheets unchanged. -/
lemma collect_fst_skip (env : CombineEnv) (d : String) (xs ys : List String) (f : String)
    (h : (env.read f).isOk = false) :
    (collectSheets env d (xs ++ f :: ys)).1 = (collectSheets env d (xs ++ ys)).1 := by
  unfold collectSheets
  rw [List.foldl_append, List.foldl_append]
  generalize List.foldl (combineStep env d) ([], []) xs = A
  obtain ⟨As, Ap⟩ := A
  cases hg : env.read f <;> simp only [List.foldl_cons, combineStep, hg]
  case ok df => rw [hg] at h; simp [ReadOutcome.isOk] at h
  all_goals exact collect_fst_printed_irrelevant env d ys As _ Ap

/-- A key's lookup survives the rest of the loop when every successfully read
remaining file mapping to that sheet name carries the same DataFrame. -/
lemma collect_lookup_stable (env : CombineEnv) (d : String) :
    ∀ (l : List String) (s : List (String × DataFrame)) (p : List String)
      (n : String) (df : DataFrame),
      List.lookup n s = some df →
      (∀ g ∈ l, (env.read g).isOk = true →
        sheet_name_of (os_path_join d g) = n → env.read g = ReadOutcome.ok df) →
      List.lookup n (List.foldl (combineStep env d) (s, p) l).1 = some df := by
  intro l
  induction l with
  | nil => intro s p n df hs _; exact hs
  | cons g rest ih =>
    intro s p n df hs hstable
    cases hg : env.read g <;> simp only [List.foldl_cons, combineStep, hg]
    case ok dg =>
      by_cases hn : sheet_name_of (os_path_join d g) = n
      · have hdg : env.read g = ReadOutcome.ok df := by
          refine hstable g (by simp) ?_ hn
          rw [hg]; rfl
        rw [hg] at hdg
        injection hdg with hdf
        subst hdf
        rw [hn]
        refine ih _ _ _ _ (lookup_dictInsert_self s n dg) ?_
        exact fun g' hg' => hstable g' (by simp [hg'])
      · refine ih _ _ _ _ ?_ (fun g' hg' => hstable g' (by simp [hg']))
        rw [lookup_dictInsert_other _ _ _ _ (fun hne => hn hne.symm)]
        exact hs
    all_goals exact ih _ _ _ _ hs (fun g' hg' => hstable g' (by simp [hg']))

/-- After the loop, a successfully read file's sheet name maps to its
DataFrame, provided every successfully read file sharing that sheet name
carries the same DataFrame. -/
lemma collect_lookup_of_ok (env : CombineEnv) (d : String) :
    ∀ (l : List String) (s : List (String × DataFrame)) (p : List String)
      (f : String) (df : DataFrame),
      f ∈ l → env.read f = ReadOutcome.ok df →
      (∀ g ∈ l, (env.read g).isOk = true →
        sheet_name_of (os_path_join d g) = sheet_name_of (os_path_join d f) →
        env.read g = ReadOutcome.ok df) →
      List.lookup (sheet_name_of (os_path_join d f))
        (List.foldl (combineStep env d) (s, p) l).1 = some df := by
  intro l
  induction l with
  | nil => intro s p f df hf; simp at hf
  | cons g rest ih =>
    intro s p f df hf hok huniq
    rcases List.mem_cons.mp hf with hgg | hgg
    · subst hgg
      simp only [List.foldl_cons, combineStep, hok]
      refine collect_lookup_stable env d rest _ _ _ _ (lookup_dictInsert_self _ _ _) ?_
      exact fun g' hg' => huniq g' (by simp [hg'])
    · cases hg : env.read g <;> simp only [List.foldl_cons, combineStep, hg]
      case ok dg =>
        by_cases hn : sheet_name_of (os_path_join d g) = sheet_name_of (os_path_join d f)
        · have hdg : env.read g = ReadOutcome.ok df := by
            refine huniq g (by simp) ?_ hn
            rw [hg]; rfl
          rw [hg] at hdg
          injection hdg with hdf
          subst hdf
          rw [hn]
          refine collect_lookup_stable env d rest _ _ _ _ (lookup_dictInsert_self _ _ _) ?_
          exact fun g' hg' => huniq g' (by simp [hg'])
        · exact ih _ _ _ _ hgg hok (fun g' hg' => huniq g' (by simp [hg']))
      all_goals exact ih _ _ _ _ hgg hok (fun g' hg' => huniq g' (by simp [hg']))

/-- `to_excel` with `index=False` emits the records unchanged. -/
lemma to_excel_records_false (df : DataFrame) : to_excel_records df false = df := rfl

/-! ## Claims about `combine_csvs_to_excel` and the orchestrator -/

/-- C6: a candidate file that fails to read (absent, unparseable, empty, or
any other read exception) is skipped with a warning; the remaining filenames
are processed unaffected, and the workbook is still produced from them when at
least one file reads successfully (and the final write succeeds). -/
theorem c6_skipped_file_contained (env : CombineEnv) (d out f : String)
    (xs ys : List String) (hfail : (env.read f).isOk = false) :
    (collectSheets env d (xs ++ f :: ys)).1 = (collectSheets env d (xs ++ ys)).1 ∧
    readWarning (os_path_join d f) (env.read f) ≠ [] ∧
    (∀ w ∈ readWarning (os_path_join d f) (env.read f),
      w ∈ (collectSheets env d (xs ++ f :: ys)).2) ∧
    ((∃ g ∈ xs ++ ys, (env.read g).isOk = true) → env.write = ExcelWriteOutcome.ok →
      (combine_csvs_to_excel env d (xs ++ f :: ys) out).workbook =
        (combine_csvs_to_excel env d (xs ++ ys) out).workbook ∧
      ∃ wb, (combine_csvs_to_excel env d (xs ++ f :: ys) out).workbook = some wb) := by
  have hsheets := collect_fst_skip env d xs ys f hfail
  refine ⟨hsheets, ?_, ?_, ?_⟩
  · cases hg : env.read f
    case ok df => rw [hg] at hfail; simp [ReadOutcome.isOk] at hfail
    all_goals simp [readWarning]
  · intro w hw
    unfold collectSheets
    rw [List.foldl_append]
    generalize List.foldl (combineStep env d) ([], []) xs = A
    obtain ⟨As, Ap⟩ := A
    cases hg : env.read f
    case ok df => rw [hg] at hfail; simp [ReadOutcome.isOk] at hfail
    all_goals
      rw [hg] at hw
      simp only [List.foldl_cons, combineStep, hg]
      exact mem_collect_printed env d ys _ _ w (List.mem_append_right _ hw)
  · intro hex hw
    have hne : (collectSheets env d (xs ++ ys)).1 ≠ [] := by
      have := collect_fst_ne_nil_of_ok env d (xs ++ ys) [] []
        (by obtain ⟨g, hg, hok⟩ := hex; exact ⟨g, hg, hok⟩)
      simpa [collectSheets] using this
    have hne' : (collectSheets env d (xs ++ f :: ys)).1 ≠ [] := by
      rw [hsheets]; exact hne
    constructor
    · simp only [combine_csvs_to_excel, hw, if_neg hne', if_neg hne]
      rw [hsheets]
    · refine ⟨(collectSheets env d (xs ++ f :: ys)).1.map
        (fun p => (p.1, to_excel_records p.2 false)), ?_⟩
      simp only [combine_csvs_to_excel, hw, if_neg hne']

/-- Witness for C6: a missing file among the candidates is skipped and the
workbook is still produced. -/
theorem c6_skipped_file_contained_witness :
    (combEnv.read "BAD.csv").isOk = false ∧
    (collectSheets combEnv "d" (["A.csv"] ++ "BAD.csv" :: [])).1 =
      (collectSheets combEnv "d" (["A.csv"] ++ [])).1 ∧
    ∃ wb,
      (combine_csvs_to_excel combEnv "d" (["A.csv"] ++ "BAD.csv" :: []) "out.xlsx").workbook =
        some wb :=
  ⟨by decide,
    (c6_skipped_file_contained combEnv "d" "out.xlsx" "BAD.csv" ["A.csv"] [] (by decide)).1,
    ((c6_skipped_file_contained combEnv "d" "out.xlsx" "BAD.csv" ["A.csv"] [] (by decide)).2.2.2
      ⟨"A.csv", by decide, by decide⟩ rfl).2⟩

/-- C7: when the combiner reads zero files successfully its sheet set is
empty, it produces no workbook, and it returns `ERROR_UNKNOWN`. -/
theorem c7_empty_sheet_set (env : CombineEnv) (d out : String) (files : List String)
    (hall : ∀ f ∈ files, (env.read f).isOk = false) :
    (combine_csvs_to_excel env d files out).retval = some ErrorCode.ERROR_UNKNOWN ∧
    (combine_csvs_to_excel env d files out).workbook = none := by
  have hs : (collectSheets env d files).1 = [] := by
    have := collect_fst_all_fail env d files [] [] hall
    simpa [collectSheets] using this
  constructor <;> simp [combine_csvs_to_excel, hs]

/-- Witness for C7 at a concrete environment in which no candidate exists. -/
theorem c7_empty_sheet_set_witness :
    (∀ f ∈ ["X.csv"], (allFailEnv.read f).isOk = false) ∧
    (combine_csvs_to_excel allFailEnv "d" ["X.csv"] "out.xlsx").retval =
      some ErrorCode.ERROR_UNKNOWN ∧
    (combine_csvs_to_excel allFailEnv "d" ["X.csv"] "out.xlsx").workbook = none :=
  ⟨by decide,
    (c7_empty_sheet_set allFailEnv "d" "out.xlsx" ["X.csv"] (by decide)).1,
    (c7_empty_sheet_set allFailEnv "d" "out.xlsx" ["X.csv"] (by decide)).2⟩

/-- C8 counterexample: the claim says the console line carries the bare
result-code name (`AAPL - SUCCESS`), but the code's f-string interpolates the
`Enum` member, yielding the class-qualified `AAPL - ErrorCode.SUCCESS`;
moreover tickers shorter than 4 characters are padded. -/
theorem c8_counterexample :
    ticker_line "AAPL" ErrorCode.SUCCESS ≠ "AAPL - SUCCESS" ∧
    ticker_line "AAPL" ErrorCode.SUCCESS = "AAPL - ErrorCode.SUCCESS" ∧
    ticker_line "F" ErrorCode.SUCCESS = "F    - ErrorCode.SUCCESS" := by
  refine ⟨by decide, by decide, by decide⟩

/-- C8 (amended): the orchestrator prints one line per ticker of the form
`{t:<4} - ErrorCode.<NAME>` — the ticker left-justified to a minimum width of
4, then ` - `, then the class-qualified enum member name; for tickers of at
least 4 characters the line is exactly `TICKER - ErrorCode.<NAME>`. -/
theorem c8_console_line_qualified (t : String) (rc : ErrorCode) (h : 4 ≤ t.length) :
    ticker_line t rc = t ++ " - " ++ errorCodeStr rc ∧
    errorCodeStr rc = "ErrorCode." ++ errorCodeName rc := by
  constructor
  · unfold ticker_line ljust
    rw [Nat.sub_eq_zero_of_le h]
    simp
  · rfl

/-- Witness for C8 (amended) at the spec's own example ticker. -/
theorem c8_console_line_qualified_witness :
    4 ≤ ("ZZZZINVALID" : String).length ∧
    (ticker_line "ZZZZINVALID" ErrorCode.ERROR_HTTP_REQUEST =
      "ZZZZINVALID" ++ " - " ++ errorCodeStr ErrorCode.ERROR_HTTP_REQUEST ∧
    errorCodeStr ErrorCode.ERROR_HTTP_REQUEST =
      "ErrorCode." ++ errorCodeName ErrorCode.ERROR_HTTP_REQUEST) :=
  ⟨by decide, c8_console_line_qualified "ZZZZINVALID" ErrorCode.ERROR_HTTP_REQUEST (by decide)⟩

/-- C9 counterexample: `replace(".csv", "")` removes every occurrence of
`.csv`, not only a trailing extension: the file `A.csvB.csv` yields the sheet
name `AB`, while stripping the extension from the end would yield `A.csvB`. -/
theorem c9_counterexample :
    (combine_csvs_to_excel allOkEnv "d" ["A.csvB.csv"] "out.xlsx").workbook =
      some [("AB", [["h"], ["1"]])] ∧
    stripCsvExtensionSpec "A.csvB.csv" = "A.csvB" ∧
    ("AB" : String) ≠ stripCsvExtensionSpec "A.csvB.csv" := by
  refine ⟨by decide, by decide, by decide⟩

/-- C9 (amended): the sheet name is the filename with every occurrence of the
substring `.csv` removed (for ordinary names `TICKER.csv`, where `.csv` occurs
only as the trailing extension, this coincides with stripping the extension);
the sheet content is the file's records as read, header included, and
`index=False` adds no synthetic index column. -/
theorem c9_sheet_name_and_content (env : CombineEnv) (d out f : String)
    (files : List String) (df : DataFrame)
    (hf : f ∈ files) (hok : env.read f = ReadOutcome.ok df)
    (huniq : ∀ g ∈ files, (env.read g).isOk = true →
      sheet_name_of (os_path_join d g) = sheet_name_of (os_path_join d f) →
      env.read g = ReadOutcome.ok df) :
    List.lookup (sheet_name_of (os_path_join d f)) (collectSheets env d files).1 =
      some df ∧
    to_excel_records df false = df ∧
    (env.write = ExcelWriteOutcome.ok →
      ∃ wb, (combine_csvs_to_excel env d files out).workbook = some wb ∧
        List.lookup (sheet_name_of (os_path_join d f)) wb = some df) := by
  have h1 : List.lookup (sheet_name_of (os_path_join d f))
      (collectSheets env d files).1 = some df := by
    have := collect_lookup_of_ok env d files [] [] f df hf hok huniq
    simpa [collectSheets] using this
  refine ⟨h1, rfl, ?_⟩
  intro hw
  have hne : (collectSheets env d files).1 ≠ [] := by
    intro hnil; rw [hnil] at h1; simp at h1
  refine ⟨(collectSheets env d files).1.map (fun p => (p.1, to_excel_records p.2 false)),
    ?_, ?_⟩
  · simp only [combine_csvs_to_excel, hw, if_neg hne]
  · have hmap : (collectSheets env d files).1.map
        (fun p => (p.1, to_excel_records p.2 false)) = (collectSheets env d files).1 := by
      simp [to_excel_records_false]
    rw [hmap]
    exact h1

/-- Witness for C9 (amended) at a concrete environment. -/
theorem c9_sheet_name_and_content_witness :
    "A.csv" ∈ ["A.csv"] ∧
    combEnv.read "A.csv" = ReadOutcome.ok [["h"], ["1"]] ∧
    (List.lookup (sheet_name_of (os_path_join "d" "A.csv"))
      (collectSheets combEnv "d" ["A.csv"]).1 = some [["h"], ["1"]] ∧
    to_excel_records [["h"], ["1"]] false = [["h"], ["1"]] ∧
    (combEnv.write = ExcelWriteOutcome.ok →
      ∃ wb, (combine_csvs_to_excel combEnv "d" ["A.csv"] "out.xlsx").workbook = some wb ∧
        List.lookup (sheet_name_of (os_path_join "d" "A.csv")) wb = some [["h"], ["1"]])) :=
  ⟨by decide, by decide,
    c9_sheet_name_and_content combEnv "d" "out.xlsx" "A.csv" ["A.csv"] [["h"], ["1"]]
      (by decide) (by decide) (by decide)⟩

/-- C10: when the final workbook write raises (`PermissionError` or any other
exception), the combiner prints a diagnostic and returns `None` — its result
is not any member of the result-code enumeration — whereas every other exit
path of the combiner returns a result code. -/
theorem c10_write_failure_returns_none (env : CombineEnv) (d out : String)
    (files : List String) :
    ((∃ g ∈ files, (env.read g).isOk = true) →
      (env.write = ExcelWriteOutcome.permError →
        (combine_csvs_to_excel env d files out).retval = none ∧
        (combine_csvs_to_excel env d files out).printed =
          (collectSheets env d files).2 ++
            [s!"Error: Permission denied when trying to write to {out}."]) ∧
      (∀ m, env.write = ExcelWriteOutcome.otherExn m →
        (combine_csvs_to_excel env d files out).retval = none ∧
        (combine_csvs_to_excel env d files out).printed =
          (collectSheets env d files).2 ++
            [s!"An error occurred while writing the Excel file: {m}"])) ∧
    (env.write = ExcelWriteOutcome.ok →
      ∃ c, (combine_csvs_to_excel env d files out).retval = some c) ∧
    ((∀ g ∈ files, (env.read g).isOk = false) →
      (combine_csvs_to_excel env d files out).retval = some ErrorCode.ERROR_UNKNOWN) := by
  refine ⟨?_, ?_, ?_⟩
  · intro hex
    have hne : (collectSheets env d files).1 ≠ [] := by
      have := collect_fst_ne_nil_of_ok env d files [] [] hex
      simpa [collectSheets] using this
    constructor
    · intro hw
      constructor <;> simp only [combine_csvs_to_excel, hw, if_neg hne]
    · intro m hw
      constructor <;> simp only [combine_csvs_to_excel, hw, if_neg hne]
  · intro hw
    by_cases hs : (collectSheets env d files).1 = []
    · exact ⟨ ErrorCode.ERROR_UNKNOWN, by simp only [combine_csvs_to_excel, if_pos hs]⟩
    · exact ⟨ ErrorCode.SUCCESS, by simp only [combine_csvs_to_excel, hw, if_neg hs]⟩
  · intro hall
    have hs : (collectSheets env d files).1 = [] := by
      have := collect_fst_all_fail env d files [] [] hall
      simpa [collectSheets] using this
    simp only [combine_csvs_to_excel, if_pos hs]

/-- Witness for C10: a permission failure on the final write at a concrete
environment yields the `None` return. -/
theorem c10_write_failure_returns_none_witness :
    (∃ g ∈ ["A.csv"], (permFailEnv.read g).isOk = true) ∧
    permFailEnv.write = ExcelWriteOutcome.permError ∧
    (combine_csvs_to_excel permFailEnv "d" ["A.csv"] "out.xlsx").retval = none :=
  ⟨⟨"A.csv", by decide, by decide⟩, rfl,
    (((c10_write_failure_returns_none permFailEnv "d" "out.xlsx" ["A.csv"]).1
      ⟨"A.csv", by decide, by decide⟩).1 rfl).1⟩
